import Mathlib

/-!
Verification of `runtime/src/non_circulating_supply.rs`: the computation of
the non-circulating token supply of a ledger snapshot.

The core file is embedded directly.  Its external collaborators (the `Bank`
ledger-snapshot abstraction, the stake-state decoder and the stake-interface
types `Lockup`, `Meta`, `StakeStateV2`, `Clock`) are not part of the provided
source tree; they are modelled from the specification's description of the
interfaces the core consumes (spec §3, §6).
-/

set_option autoImplicit false

namespace NonCircSupply

/-- Modelled from the spec: an account identifier is a fixed-size opaque byte
key; equality and hashing are by raw bytes.  We carry the base58 text of the
key, whose equality coincides with raw-byte equality. -/
abbrev Pubkey := String

/-- Modelled from the spec: the clock snapshot `{ epoch, unix_timestamp, ... }`
taken from the ledger snapshot at call time. -/
structure Clock where
  epoch : Nat
  unix_timestamp : Int
  deriving DecidableEq, Repr

/-- Modelled from the spec: a lockup
`{ unlock_epoch, unlock_unix_timestamp, custodian }`. -/
structure Lockup where
  unlock_unix_timestamp : Int
  unlock_epoch : Nat
  custodian : Pubkey
  deriving DecidableEq, Repr

/-- Modelled from the spec: lockup is "in force" relative to a clock snapshot
and an optional custodian signer; a matching custodian signer disables the
lockup, and with no custodian the lockup is in force while its unlock epoch or
unlock timestamp is still strictly in the future (spec §3, §8 "lockup expiry
transition"). -/
def Lockup.is_in_force (l : Lockup) (clock : Clock) (custodian : Option Pubkey) : Bool :=
  if custodian = some l.custodian then
    false
  else
    l.unlock_unix_timestamp > clock.unix_timestamp || l.unlock_epoch > clock.epoch

/-- Modelled from the spec: the `{ staker, withdrawer }` authorities of a stake
account. -/
structure Authorized where
  staker : Pubkey
  withdrawer : Pubkey
  deriving DecidableEq, Repr

/-- Modelled from the spec: stake-account metadata `{ lockup, authorized }`. -/
structure Meta where
  authorized : Authorized
  lockup : Lockup
  deriving DecidableEq, Repr

/-- Modelled from the spec: the active delegation carried by a delegated stake
account; opaque to this computation. -/
structure Delegation where
  voter_pubkey : Pubkey
  stake : Nat
  deriving DecidableEq, Repr

/-- Modelled from the spec: the stake payload of a delegated stake account;
opaque to this computation. -/
structure StakePayload where
  delegation : Delegation
  credits_observed : Nat
  deriving DecidableEq, Repr

/-- Modelled from the spec: stake flags; opaque to this computation. -/
structure StakeFlags where
  bits : Nat
  deriving DecidableEq, Repr

/-- Modelled from the spec: the tagged stake-account state with cases
`Uninitialized`, `Initialized{meta}`, `Stake{meta, stake, flags}` (the
delegated case) and `RewardsPool`. -/
inductive StakeStateV2 where
  | Uninitialized
  | Initialized (meta : Meta)
  | Stake (meta : Meta) (stake : StakePayload) (stake_flags : StakeFlags)
  | RewardsPool
  deriving DecidableEq, Repr

/-- Modelled from the spec: a stored account as the core consumes it: a lamport
balance, an owning-program identifier, and raw data bytes.  The raw bytes are
abstracted by their decode result: `data = none` stands for bytes that do not
parse as any known stake state. -/
structure Account where
  lamports : Nat
  owner : Pubkey
  data : Option StakeStateV2
  deriving DecidableEq, Repr

/-- Modelled from the spec: `stake_state::from`, the stake-program account
decoder turning raw account bytes into a typed stake-state value, `none` on
malformed or unexpected layout. -/
def stake_state_from (account : Account) : Option StakeStateV2 :=
  account.data

/-- Modelled from the spec: the scan-failure kind returned by the ledger
snapshot's enumeration strategies. -/
inductive ScanError where
  | aborted (msg : String)
  deriving DecidableEq, Repr

/-- Modelled from the spec: the owning-program identifier of the stake
program. -/
def stake_program_id : Pubkey := "Stake11111111111111111111111111111111111111"

/-- Modelled from the spec: the ledger snapshot ("Bank") collaborator, reduced
to the interfaces the core consumes: a clock snapshot, the stored accounts, the
capability flag for the program-owner secondary index, the (possibly stale) set
of keys that index associates with the stake program, and whether the
enumeration step fails. -/
structure Bank where
  clock : Clock
  accounts : List (Pubkey × Account)
  has_program_id_index : Bool
  /-- Keys the program-owner index maps to the stake program; the index may
  surface stale entries whose current owner no longer matches. -/
  index_keys : List Pubkey
  /-- `some e` models a snapshot whose enumeration scan fails with `e`. -/
  scan_error : Option ScanError
  deriving DecidableEq, Repr

/-- Modelled from the spec: account lookup by identifier in the snapshot. -/
def Bank.lookup (bank : Bank) (key : Pubkey) : Option Account :=
  (bank.accounts.find? (fun p => p.1 == key)).map Prod.snd

/-- Modelled from the spec: `balance_of` / `Bank::get_balance`, a
balance-by-identifier lookup that returns zero for an identifier absent from
the ledger, never an error. -/
def Bank.get_balance (bank : Bank) (key : Pubkey) : Nat :=
  match bank.lookup key with
  | some account => account.lamports
  | none => 0

/-- Modelled from the spec: indexed enumeration
(`Bank::get_filtered_indexed_accounts`): resolve every key the program-owner
index surfaces to its current stored account and keep those passing the
caller-supplied filter; fails with a scan-failure kind on internal error. -/
def Bank.get_filtered_indexed_accounts (bank : Bank) (filter : Account → Bool) :
    Except ScanError (List (Pubkey × Account)) :=
  match bank.scan_error with
  | some e => Except.error e
  | none =>
      Except.ok (((bank.index_keys.filterMap
        (fun key => (bank.lookup key).map (fun account => (key, account)))).filter
          (fun pa => filter pa.2)))

/-- Modelled from the spec: full linear scan (`Bank::get_program_accounts`)
filtered by owner equality; fails with the same scan-failure kind. -/
def Bank.get_program_accounts (bank : Bank) (program_id : Pubkey) :
    Except ScanError (List (Pubkey × Account)) :=
  match bank.scan_error with
  | some e => Except.error e
  | none => Except.ok (bank.accounts.filter (fun pa => pa.2.owner == program_id))

/-- The report type `NonCirculatingSupply { lamports, accounts }`. -/
structure NonCirculatingSupply where
  lamports : Nat
  accounts : List Pubkey
  deriving DecidableEq, Repr

/-- Mainnet-beta accounts that should be considered non-circulating
(`non_circulating_accounts`). -/
def non_circulating_accounts : List Pubkey :=
  ["11111111111111111111111111111112"]

/-- Withdraw authority for autostaked accounts on mainnet-beta
(`withdraw_authority`). -/
def withdraw_authority : List Pubkey :=
  [ "8CUUMKYNGxdgYio5CLHRHyzMEhhVRMcqefgE6dLqnVRK"
  , "3FFaheyqtyAXZSYxDzsr5CVKvJuvZD1WE1VEsBtDbRqB"
  , "FdGYQdiRky8NZzN9wZtczTBcWLYYRXrJ3LMDhqDPn5rM"
  , "4e6KwQpyzGQPfgVr5Jn3g5jLjbXB4pKPa2jRLohEb1QA"
  , "FjiEiVKyMGzSLpqoB27QypukUfyWHrwzPcGNtopzZVdh"
  , "DwbVjia1mYeSGoJipzhaf4L5hfer2DJ1Ys681VzQm5YY"
  , "GeMGyvsTEsANVvcT5cme65Xq5MVU8fVVzMQ13KAZFNS2"
  , "Bj3aQ2oFnZYfNR1njzRjmWizzuhvfcYLckh76cqsbuBM"
  , "4ZJhPQAgUseCsWhKvJLTmmRRUV74fdoTpQLNfKoekbPY"
  , "HXdYQ5gixrY2H6Y9gqsD8kPM2JQKSaRiohDQtLbZkRWE" ]

/-- `2^64`: lamport balances and their running sum are unsigned 64-bit values;
each addition wraps modulo this bound (release-mode `u64` semantics). -/
def u64_size : Nat := 2 ^ 64

/-- The enumeration-strategy selection inside `calculate_non_circulating_supply`
(source lines 28–47): indexed enumeration with the redundant owner filter when
the account store maintains a program-owner index, otherwise a full scan. -/
def Bank.stake_account_enumeration (bank : Bank) :
    Except ScanError (List (Pubkey × Account)) :=
  if bank.has_program_id_index then
    bank.get_filtered_indexed_accounts (fun account => account.owner == stake_program_id)
  else
    bank.get_program_accounts stake_program_id

/-- The body of the classification loop of `calculate_non_circulating_supply`
(source lines 49–68), applied to one enumerated `(pubkey, account)` pair:
decode with `unwrap_or_default`, then insert the pubkey into the set when the
`Initialized` or `Stake` metadata has its lockup in force (no custodian) or a
restricted withdraw authority. -/
def classifyStep (clock : Clock) (withdraw_authority_list : List Pubkey)
    (s : List Pubkey) (pa : Pubkey × Account) : List Pubkey :=
  match (stake_state_from pa.2).getD StakeStateV2.Uninitialized with
  | StakeStateV2.Initialized meta =>
      if meta.lockup.is_in_force clock none
          || withdraw_authority_list.contains meta.authorized.withdrawer then
        s.insert pa.1
      else s
  | StakeStateV2.Stake meta _stk _flags =>
      if meta.lockup.is_in_force clock none
          || withdraw_authority_list.contains meta.authorized.withdrawer then
        s.insert pa.1
      else s
  | _ => s

/-- `calculate_non_circulating_supply`: seed the set with the static
non-circulating list, enumerate stake-program accounts (propagating scan
failure), classify each, then sum the current balances of the members. -/
def calculate_non_circulating_supply (bank : Bank) :
    Except ScanError NonCirculatingSupply :=
  let non_circulating_accounts_set : List Pubkey :=
    non_circulating_accounts.foldl (fun s key => s.insert key) []
  let withdraw_authority_list := withdraw_authority
  let clock := bank.clock
  match bank.stake_account_enumeration with
  | Except.error e => Except.error e
  | Except.ok stake_accounts =>
      let final_set :=
        stake_accounts.foldl (classifyStep clock withdraw_authority_list)
          non_circulating_accounts_set
      let lamports :=
        final_set.foldl (fun acc pubkey => (acc + bank.get_balance pubkey) % u64_size) 0
      Except.ok { lamports := lamports, accounts := final_set }

/-- The spec's inclusion rule (§4.2), stated on one enumerated account: for
`Initialized{meta}` or `Delegated{meta,...}` variants, include iff the lockup
is in force under the clock (no custodian bypass) or the withdrawer is in the
restricted withdraw-authority list; any other variant is never included. -/
def included_by_rule (clock : Clock) (withdraw_authority_list : List Pubkey)
    (account : Account) : Bool :=
  match (stake_state_from account).getD StakeStateV2.Uninitialized with
  | StakeStateV2.Initialized meta =>
      meta.lockup.is_in_force clock none
        || withdraw_authority_list.contains meta.authorized.withdrawer
  | StakeStateV2.Stake meta _stk _flags =>
      meta.lockup.is_in_force clock none
        || withdraw_authority_list.contains meta.authorized.withdrawer
  | _ => false

/-! ### Basic lemmas about the classification fold -/

theorem classifyStep_eq (clock : Clock) (wal : List Pubkey) (s : List Pubkey)
    (pa : Pubkey × Account) :
    classifyStep clock wal s pa =
      if included_by_rule clock wal pa.2 then s.insert pa.1 else s := by
  cases h : (stake_state_from pa.2).getD StakeStateV2.Uninitialized <;>
    simp [classifyStep, included_by_rule, h]

theorem mem_classifyStep (clock : Clock) (wal : List Pubkey) (s : List Pubkey)
    (pa : Pubkey × Account) (k : Pubkey) :
    k ∈ classifyStep clock wal s pa ↔
      k ∈ s ∨ (k = pa.1 ∧ included_by_rule clock wal pa.2 = true) := by
  rw [classifyStep_eq]
  by_cases h : included_by_rule clock wal pa.2 = true
  · simp [h, List.mem_insert_iff]
    tauto
  · simp [h]

theorem mem_foldl_classify (clock : Clock) (wal : List Pubkey)
    (accs : List (Pubkey × Account)) (s : List Pubkey) (k : Pubkey) :
    k ∈ accs.foldl (classifyStep clock wal) s ↔
      k ∈ s ∨ ∃ a, (k, a) ∈ accs ∧ included_by_rule clock wal a = true := by
  induction accs generalizing s with
  | nil => simp
  | cons pa rest ih =>
    obtain ⟨p, b⟩ := pa
    rw [List.foldl_cons, ih, mem_classifyStep]
    simp only [List.mem_cons, Prod.mk.injEq]
    constructor
    · rintro ((hs | ⟨rfl, hb⟩) | ⟨a, ha, hr⟩)
      · exact Or.inl hs
      · exact Or.inr ⟨b, Or.inl ⟨rfl, rfl⟩, hb⟩
      · exact Or.inr ⟨a, Or.inr ha, hr⟩
    · rintro (hs | ⟨a, (⟨rfl, rfl⟩ | ha), hr⟩)
      · exact Or.inl (Or.inl hs)
      · exact Or.inl (Or.inr ⟨rfl, hr⟩)
      · exact Or.inr ⟨a, ha, hr⟩

theorem mem_foldl_insert (keys : List Pubkey) (s : List Pubkey) (k : Pubkey) :
    k ∈ keys.foldl (fun s key => s.insert key) s ↔ k ∈ s ∨ k ∈ keys := by
  induction keys generalizing s with
  | nil => simp
  | cons a rest ih =>
    rw [List.foldl_cons, ih]
    simp [List.mem_insert_iff]
    tauto

/-! ### Lemmas about enumeration and the shape of `calculate_non_circulating_supply` -/

/-- The identifier set built by one call: static seed, then the classification
fold over the enumerated stake accounts. -/
def classified_set (bank : Bank) (accs : List (Pubkey × Account)) : List Pubkey :=
  accs.foldl (classifyStep bank.clock withdraw_authority)
    (non_circulating_accounts.foldl (fun s key => s.insert key) [])

/-- The balance summation of one call: a left fold of wrapping 64-bit
addition of `get_balance` over the member identifiers. -/
def wrap_sum (bank : Bank) (keys : List Pubkey) : Nat :=
  keys.foldl (fun acc pubkey => (acc + bank.get_balance pubkey) % u64_size) 0

theorem enumeration_error_iff (bank : Bank) (e : ScanError) :
    bank.stake_account_enumeration = Except.error e ↔ bank.scan_error = some e := by
  unfold Bank.stake_account_enumeration Bank.get_filtered_indexed_accounts
    Bank.get_program_accounts
  by_cases hix : bank.has_program_id_index <;>
    cases h : bank.scan_error <;> simp [hix, h]

theorem enumeration_ok_of_no_error (bank : Bank) (h : bank.scan_error = none) :
    ∃ accs, bank.stake_account_enumeration = Except.ok accs := by
  unfold Bank.stake_account_enumeration Bank.get_filtered_indexed_accounts
    Bank.get_program_accounts
  by_cases hix : bank.has_program_id_index <;> simp [hix, h]

theorem calculate_of_enum_error (bank : Bank) (e : ScanError)
    (h : bank.stake_account_enumeration = Except.error e) :
    calculate_non_circulating_supply bank = Except.error e := by
  unfold calculate_non_circulating_supply
  rw [h]

theorem calculate_of_enum_ok (bank : Bank) (accs : List (Pubkey × Account))
    (h : bank.stake_account_enumeration = Except.ok accs) :
    calculate_non_circulating_supply bank =
      Except.ok { lamports := wrap_sum bank (classified_set bank accs)
                , accounts := classified_set bank accs } := by
  unfold calculate_non_circulating_supply classified_set wrap_sum
  rw [h]

theorem calculate_ok_exists (bank : Bank) (h : bank.scan_error = none) :
    ∃ r, calculate_non_circulating_supply bank = Except.ok r := by
  obtain ⟨accs, hacc⟩ := enumeration_ok_of_no_error bank h
  exact ⟨_, calculate_of_enum_ok bank accs hacc⟩

theorem mem_classified_set (bank : Bank) (accs : List (Pubkey × Account)) (k : Pubkey) :
    k ∈ classified_set bank accs ↔
      k ∈ non_circulating_accounts ∨
        ∃ a, (k, a) ∈ accs ∧ included_by_rule bank.clock withdraw_authority a = true := by
  unfold classified_set
  rw [mem_foldl_classify, mem_foldl_insert]
  simp

/-! ### Wrapping summation -/

theorem foldl_wrap_add (l : List Nat) (init : Nat) :
    l.foldl (fun a b => (a + b) % u64_size) (init % u64_size) =
      (init + l.sum) % u64_size := by
  induction l generalizing init with
  | nil => simp
  | cons b t ih =>
    rw [List.foldl_cons, List.sum_cons, Nat.mod_add_mod, ih, Nat.add_assoc]

theorem wrap_sum_eq (bank : Bank) (keys : List Pubkey) :
    wrap_sum bank keys = (keys.map bank.get_balance).sum % u64_size := by
  unfold wrap_sum
  rw [← List.foldl_map bank.get_balance (fun a b => (a + b) % u64_size)]
  have h0 : (0 : Nat) = 0 % u64_size := rfl
  rw [h0, foldl_wrap_add, Nat.zero_add]

/-! ### Deduplication -/

theorem nodup_classifyStep (clock : Clock) (wal : List Pubkey) (s : List Pubkey)
    (pa : Pubkey × Account) (h : s.Nodup) : (classifyStep clock wal s pa).Nodup := by
  rw [classifyStep_eq]
  by_cases hi : included_by_rule clock wal pa.2 = true
  · simpa [hi] using h.insert
  · simpa [hi] using h

theorem nodup_foldl_classify (clock : Clock) (wal : List Pubkey)
    (accs : List (Pubkey × Account)) (s : List Pubkey) (h : s.Nodup) :
    (accs.foldl (classifyStep clock wal) s).Nodup := by
  induction accs generalizing s with
  | nil => exact h
  | cons pa rest ih => exact ih _ (nodup_classifyStep _ _ _ _ h)

theorem nodup_foldl_insert (keys : List Pubkey) (s : List Pubkey) (h : s.Nodup) :
    (keys.foldl (fun s key => s.insert key) s).Nodup := by
  induction keys generalizing s with
  | nil => exact h
  | cons a rest ih => exact ih _ h.insert

theorem nodup_classified_set (bank : Bank) (accs : List (Pubkey × Account)) :
    (classified_set bank accs).Nodup :=
  nodup_foldl_classify _ _ _ _ (nodup_foldl_insert _ _ List.nodup_nil)

/-- Inversion of a successful call: it comes from a successful enumeration,
and the report is the classified set with its wrapping balance sum. -/
theorem calculate_ok_inv (bank : Bank) (r : NonCirculatingSupply)
    (h : calculate_non_circulating_supply bank = Except.ok r) :
    ∃ accs, bank.stake_account_enumeration = Except.ok accs ∧
      r = { lamports := wrap_sum bank (classified_set bank accs)
          , accounts := classified_set bank accs } := by
  cases he : bank.stake_account_enumeration with
  | error e =>
      rw [calculate_of_enum_error bank e he] at h
      exact Except.noConfusion h
  | ok accs =>
      rw [calculate_of_enum_ok bank accs he] at h
      injection h with h
      exact ⟨accs, rfl, h.symm⟩

/-! ### Concrete ledger snapshots used as witnesses and counterexamples -/

/-- A clock at epoch 0, timestamp 0. -/
def clock0 : Clock := { epoch := 0, unix_timestamp := 0 }

/-- Metadata whose lockup (unlock epoch 1) is in force at epoch 0 and whose
withdrawer is unrestricted. -/
def meta_locked : Meta :=
  { authorized := { staker := "S1", withdrawer := "S1" }
  , lockup := { unlock_unix_timestamp := 0, unlock_epoch := 1, custodian := "C1" } }

/-- A stake-program account holding `bal` lamports, initialized with
`meta_locked`. -/
def locked_stake_account (bal : Nat) : Account :=
  { lamports := bal, owner := stake_program_id
  , data := some (StakeStateV2.Initialized meta_locked) }

/-- A stake-program account whose bytes do not decode. -/
def acct_bad : Account := { lamports := 5, owner := stake_program_id, data := none }

/-- A well-formed stake account for the stale-index scenario. -/
def acct_good : Account := locked_stake_account 3

/-- A snapshot holding only the static non-circulating account, owned by a
system program, at balance 7. -/
def bank_static : Bank :=
  { clock := clock0
  , accounts := [("11111111111111111111111111111112",
      { lamports := 7, owner := "Sys", data := none })]
  , has_program_id_index := false
  , index_keys := []
  , scan_error := none }

/-- An empty snapshot: no accounts at all. -/
def bank_empty : Bank :=
  { clock := clock0, accounts := [], has_program_id_index := false
  , index_keys := [], scan_error := none }

/-- A snapshot whose enumeration scan fails. -/
def bank_err : Bank :=
  { clock := clock0, accounts := [], has_program_id_index := false
  , index_keys := [], scan_error := some (ScanError.aborted "scan aborted") }

/-- A snapshot with one undecodable stake-program account and one locked
stake account. -/
def bank_decode_fail : Bank :=
  { clock := clock0
  , accounts := [("bad", acct_bad), ("k1", locked_stake_account 10)]
  , has_program_id_index := false, index_keys := [], scan_error := none }

/-- A snapshot whose two locked stake accounts hold `2^63` lamports each, so
that their balance sum reaches `2^64`. -/
def bank_ovf : Bank :=
  { clock := clock0
  , accounts := [("k1", locked_stake_account (2 ^ 63)), ("k2", locked_stake_account (2 ^ 63))]
  , has_program_id_index := false, index_keys := [], scan_error := none }

/-- A snapshot whose three locked stake accounts hold `2^63`, `2^63` and `5`
lamports, so that their balance sum is `2^64 + 5`. -/
def bank_ovf2 : Bank :=
  { clock := clock0
  , accounts := [("m1", locked_stake_account (2 ^ 63)), ("m2", locked_stake_account (2 ^ 63))
               , ("m3", locked_stake_account 5)]
  , has_program_id_index := false, index_keys := [], scan_error := none }

/-- A snapshot with a program-owner index surfacing a stale key (`"stale"`,
whose current owner is no longer the stake program) alongside a genuine stake
account. -/
def bank_stale : Bank :=
  { clock := clock0
  , accounts := [("stale", { lamports := 0, owner := "Sys", data := none })
               , ("good", acct_good)]
  , has_program_id_index := true
  , index_keys := ["stale", "good"]
  , scan_error := none }

/-! ### Claims -/

/-- C1: for every enumerated stake-program account, its identifier is in the
classifier's result set iff it decodes to `Initialized{meta}` or
`Stake{meta,...}` and `meta.lockup` is in force under the clock snapshot with
no custodian bypass, or `meta.authorized.withdrawer` is in the restricted
withdraw-authority list; accounts decoding to any other variant are never
included by this rule (`included_by_rule` is `false` on them by definition). -/
theorem claim_C1_classifier_inclusion (clock : Clock)
    (accs : List (Pubkey × Account)) (k : Pubkey) :
    k ∈ accs.foldl (classifyStep clock withdraw_authority) [] ↔
      ∃ a, (k, a) ∈ accs ∧ included_by_rule clock withdraw_authority a = true := by
  rw [mem_foldl_classify]
  simp

/-- C2 counterexample: on `bank_ovf` the returned report's `lamports` is `0`
while the plain sum of the current balances of exactly the identifiers in its
`accounts` field is `2^64 ≠ 0`: the claim's unqualified "equals the sum" is
false on the code, whose 64-bit summation wraps. -/
theorem claim_C2_counterexample :
    calculate_non_circulating_supply bank_ovf =
        Except.ok { lamports := 0
                  , accounts := ["k2", "k1", "11111111111111111111111111111112"] }
      ∧ ((["k2", "k1", "11111111111111111111111111111112"].map
            bank_ovf.get_balance).sum ≠ 0) :=
  ⟨rfl, by decide⟩

/-- C2 (amended): for every successful call, the report's `lamports` equals
the sum *modulo `2^64`* of the current balances (`get_balance`, zero for
absent identifiers) of exactly the identifiers in the report's `accounts`,
evaluated against the same snapshot used for classification. -/
theorem claim_C2_lamports_is_balance_sum (bank : Bank) (r : NonCirculatingSupply)
    (h : calculate_non_circulating_supply bank = Except.ok r) :
    r.lamports = (r.accounts.map bank.get_balance).sum % u64_size := by
  obtain ⟨accs, -, rfl⟩ := calculate_ok_inv bank r h
  exact wrap_sum_eq bank _

/-- Witness for C2 (amended) at `bank_static`. -/
theorem claim_C2_witness :
    (7 : Nat) =
      ((["11111111111111111111111111111112"].map bank_static.get_balance).sum) % u64_size :=
  claim_C2_lamports_is_balance_sum bank_static
    ⟨7, ["11111111111111111111111111111112"]⟩ rfl

/-- C3: every identifier of the static non-circulating list that exists in the
snapshot (here with its stored account given explicitly, any balance including
zero) appears in the report's `accounts` of every successful call. -/
theorem claim_C3_static_inclusion (bank : Bank) (k : Pubkey) (a : Account)
    (r : NonCirculatingSupply) (hk : k ∈ non_circulating_accounts)
    (_hex : bank.lookup k = some a)
    (h : calculate_non_circulating_supply bank = Except.ok r) :
    k ∈ r.accounts := by
  obtain ⟨accs, -, rfl⟩ := calculate_ok_inv bank r h
  exact (mem_classified_set bank accs k).mpr (Or.inl hk)

/-- Witness for C3 at `bank_static`, whose static account exists with
balance 7. -/
theorem claim_C3_witness :
    "11111111111111111111111111111112" ∈
      (["11111111111111111111111111111112"] : List Pubkey) :=
  claim_C3_static_inclusion bank_static "11111111111111111111111111111112"
    ⟨7, "Sys", none⟩ ⟨7, ["11111111111111111111111111111112"]⟩
    (List.mem_singleton.mpr rfl) rfl rfl

/-- C4: an enumeration failure of the ledger snapshot is returned to the
caller as that same scan failure and no report is produced; when enumeration
succeeds the call returns `Except.ok`. -/
theorem claim_C4_scan_failure_propagates (bank : Bank) :
    (∀ e, bank.scan_error = some e →
        calculate_non_circulating_supply bank = Except.error e) ∧
      (bank.scan_error = none →
        ∃ r, calculate_non_circulating_supply bank = Except.ok r) := by
  constructor
  · intro e he
    exact calculate_of_enum_error bank e ((enumeration_error_iff bank e).mpr he)
  · exact calculate_ok_exists bank

/-- Witness for C4 at `bank_err`, whose scan fails. -/
theorem claim_C4_witness :
    calculate_non_circulating_supply bank_err =
      Except.error (ScanError.aborted "scan aborted") :=
  (claim_C4_scan_failure_propagates bank_err).1 (ScanError.aborted "scan aborted") rfl

/-- C5: a per-account decode failure is local: an account whose bytes do not
decode is treated as the default `Uninitialized` variant, its classification
step leaves the set unchanged (so it is excluded), and the computation on any
snapshot whose enumeration succeeds still returns a successful report. -/
theorem claim_C5_decode_failure_is_local (clock : Clock) (wal s : List Pubkey)
    (k : Pubkey) (a : Account) (bank : Bank)
    (hd : stake_state_from a = none) (hs : bank.scan_error = none) :
    (stake_state_from a).getD StakeStateV2.Uninitialized = StakeStateV2.Uninitialized ∧
      classifyStep clock wal s (k, a) = s ∧
      ∃ r, calculate_non_circulating_supply bank = Except.ok r := by
  refine ⟨by rw [hd]; rfl, ?_, calculate_ok_exists bank hs⟩
  rw [classifyStep_eq]
  have hrule : included_by_rule clock wal a = false := by
    unfold included_by_rule
    rw [hd]
    rfl
  simp [hrule]

/-- Witness for C5 at `bank_decode_fail` and its undecodable account
`acct_bad`. -/
theorem claim_C5_witness :
    (stake_state_from acct_bad).getD StakeStateV2.Uninitialized = StakeStateV2.Uninitialized ∧
      classifyStep clock0 withdraw_authority ["x"] ("bad", acct_bad) = ["x"] ∧
      ∃ r, calculate_non_circulating_supply bank_decode_fail = Except.ok r :=
  claim_C5_decode_failure_is_local clock0 withdraw_authority ["x"] "bad" acct_bad
    bank_decode_fail rfl rfl

/-- C6: the computation is a pure function of the snapshot: two successful
calls against the same snapshot return reports with the same lamports sum and
the same account sequence. -/
theorem claim_C6_idempotent (bank : Bank) (r1 r2 : NonCirculatingSupply)
    (h1 : calculate_non_circulating_supply bank = Except.ok r1)
    (h2 : calculate_non_circulating_supply bank = Except.ok r2) :
    r1.lamports = r2.lamports ∧ r1.accounts = r2.accounts := by
  rw [h1] at h2
  injection h2 with h2
  rw [h2]
  exact ⟨rfl, rfl⟩

/-- Witness for C6 at `bank_static`. -/
theorem claim_C6_witness :
    (7 : Nat) = 7 ∧
      (["11111111111111111111111111111112"] : List Pubkey) =
        ["11111111111111111111111111111112"] :=
  claim_C6_idempotent bank_static ⟨7, ["11111111111111111111111111111112"]⟩
    ⟨7, ["11111111111111111111111111111112"]⟩ rfl rfl

/-- C7: the `accounts` sequence of every successful report is free of
duplicate identifiers: the union of the static list and the classifier output
is built by set insertion, so no identifier occurs twice. -/
theorem claim_C7_no_duplicates (bank : Bank) (r : NonCirculatingSupply)
    (h : calculate_non_circulating_supply bank = Except.ok r) :
    r.accounts.Nodup := by
  obtain ⟨accs, -, rfl⟩ := calculate_ok_inv bank r h
  exact nodup_classified_set bank accs

/-- Witness for C7 at `bank_static`. -/
theorem claim_C7_witness :
    (["11111111111111111111111111111112"] : List Pubkey).Nodup :=
  claim_C7_no_duplicates bank_static ⟨7, ["11111111111111111111111111111112"]⟩ rfl

/-- C8: whichever enumeration strategy is selected (indexed when the store
maintains a program-owner index, full scan otherwise), every yielded account
passes the owner re-check: its owner equals the stake program identifier, so a
stale index entry with a different current owner is never classified. -/
theorem claim_C8_owner_recheck (bank : Bank) (accs : List (Pubkey × Account))
    (h : bank.stake_account_enumeration = Except.ok accs) :
    ∀ pa ∈ accs, pa.2.owner = stake_program_id := by
  intro pa hpa
  unfold Bank.stake_account_enumeration Bank.get_filtered_indexed_accounts
    Bank.get_program_accounts at h
  by_cases hix : bank.has_program_id_index
  · rw [if_pos hix] at h
    cases hscan : bank.scan_error with
    | some e =>
        rw [hscan] at h
        exact Except.noConfusion h
    | none =>
        rw [hscan] at h
        injection h with h
        subst h
        exact eq_of_beq (List.mem_filter.mp hpa).2
  · rw [if_neg hix] at h
    cases hscan : bank.scan_error with
    | some e =>
        rw [hscan] at h
        exact Except.noConfusion h
    | none =>
        rw [hscan] at h
        injection h with h
        subst h
        exact eq_of_beq (List.mem_filter.mp hpa).2

/-- Witness for C8 at `bank_stale`, whose index also surfaces the stale key
`"stale"`; the enumeration yields exactly the genuine stake account and its
owner is the stake program. -/
theorem claim_C8_witness : ("good", acct_good).2.owner = stake_program_id :=
  claim_C8_owner_recheck bank_stale [("good", acct_good)] rfl ("good", acct_good)
    (List.mem_singleton.mpr rfl)

/-- C9 counterexample: on `bank_ovf2` the balances of the non-circulating
identifiers sum to `2^64 + 5`, beyond unsigned 64-bit range, yet the call
returns a successful report with the silently wrapped value `5` — not a
fatal/abort signal. -/
theorem claim_C9_counterexample :
    calculate_non_circulating_supply bank_ovf2 =
        Except.ok { lamports := 5
                  , accounts := ["m3", "m2", "m1", "11111111111111111111111111111112"] }
      ∧ ((["m3", "m2", "m1", "11111111111111111111111111111112"].map
            bank_ovf2.get_balance).sum = 2 ^ 64 + 5) :=
  ⟨rfl, by decide⟩

/-- C9 (amended): when the balance sum would overflow unsigned 64-bit
arithmetic, `calculate_non_circulating_supply` does not abort: on every
snapshot whose enumeration succeeds it returns a successful report whose
`lamports` is the balance sum silently wrapped modulo `2^64` (hence always
below `2^64`). -/
theorem claim_C9_overflow_wraps_silently (bank : Bank)
    (h : bank.scan_error = none) :
    ∃ r, calculate_non_circulating_supply bank = Except.ok r ∧
      r.lamports = (r.accounts.map bank.get_balance).sum % u64_size ∧
      r.lamports < u64_size := by
  obtain ⟨accs, he⟩ := enumeration_ok_of_no_error bank h
  refine ⟨_, calculate_of_enum_ok bank accs he, wrap_sum_eq bank _, ?_⟩
  have hpos : 0 < u64_size := by decide
  show wrap_sum bank (classified_set bank accs) < u64_size
  rw [wrap_sum_eq]
  exact Nat.mod_lt _ hpos

/-- Witness for C9 (amended) at the overflowing snapshot `bank_ovf2`. -/
theorem claim_C9_witness :
    ∃ r, calculate_non_circulating_supply bank_ovf2 = Except.ok r ∧
      r.lamports = (r.accounts.map bank_ovf2.get_balance).sum % u64_size ∧
      r.lamports < u64_size :=
  claim_C9_overflow_wraps_silently bank_ovf2 rfl

/-- C10: a static-list identifier appears in the report's `accounts` even when
no account with that identifier exists in the snapshot at all, and the absent
identifier contributes a zero balance to the summation. -/
theorem claim_C10_static_without_account (bank : Bank) (k : Pubkey)
    (r : NonCirculatingSupply) (hk : k ∈ non_circulating_accounts)
    (habs : bank.lookup k = none)
    (h : calculate_non_circulating_supply bank = Except.ok r) :
    k ∈ r.accounts ∧ bank.get_balance k = 0 := by
  obtain ⟨accs, -, rfl⟩ := calculate_ok_inv bank r h
  refine ⟨(mem_classified_set bank accs k).mpr (Or.inl hk), ?_⟩
  unfold Bank.get_balance
  rw [habs]

/-- Witness for C10 at `bank_empty`, which holds no accounts at all. -/
theorem claim_C10_witness :
    "11111111111111111111111111111112" ∈
        (["11111111111111111111111111111112"] : List Pubkey) ∧
      bank_empty.get_balance "11111111111111111111111111111112" = 0 :=
  claim_C10_static_without_account bank_empty "11111111111111111111111111111112"
    ⟨0, ["11111111111111111111111111111112"]⟩ (List.mem_singleton.mpr rfl) rfl rfl

end NonCircSupply
